import Mathlib

/-!
Verification of the LVM thin-provisioned storage driver (storage_lvm.go).

The driver is embedded shallowly: every external effect (backend command,
filesystem call, daemon accessor) is represented by an explicit outcome
passed in through an environment structure, and each driver operation is a
pure Lean function of that environment, mirroring the control flow of the
Go source line by line.  Go error values are Option String (none = nil).
-/

namespace storageLvm

/-- Go error values: none is a nil error, some msg a non-nil error. -/
abbrev GoErr := Option String

/-- Modelled from the spec: shared.SnapshotDelimiter, the reserved separator
between a container name and a snapshot suffix.  The driver source also uses
the literal slash interchangeably with it (ContainerSnapshotRename,
ContainerSnapshotStart), so it is the single slash character. -/
def snapshotDelimiter : String := "/"

/-- Go strings.Replace with a single-character pattern and count -1:
every occurrence of the pattern character is replaced by rep. -/
def replaceChar (pat : Char) (rep : List Char) : List Char → List Char
  | [] => []
  | c :: rest => (if c = pat then rep else [c]) ++ replaceChar pat rep rest

/-- containerNameToLVName: escape each hyphen to a double hyphen, then
replace the snapshot delimiter (slash) with a single hyphen. -/
def containerNameToLVName (containerName : String) : String :=
  let lvName := replaceChar '-' ['-', '-'] containerName.toList
  String.mk (replaceChar '/' ['-'] lvName)

/-- Modelled from the spec: shared.VarPath places a file under the daemon
variable directory; link records live at namespace/name.lv.  Rendered as the
two path elements joined by a slash. -/
def varPath (ns name : String) : String := ns ++ "/" ++ name

/-- Go strings.Contains specialised to a single-character substring. -/
def containsChar (s : String) (c : Char) : Bool := s.toList.contains c

/-- Go path/filepath.Base: drop trailing slashes from the end of the path. -/
def stripTrailingSlashes (l : List Char) : List Char :=
  (l.reverse.dropWhile (fun c => c = '/')).reverse

/-- Go path/filepath.Base: keep only the characters after the last slash. -/
def afterLastSlash (l : List Char) : List Char :=
  l.foldl (fun acc c => if c = '/' then [] else acc ++ [c]) []

/-- Go path/filepath.Base. -/
def filepathBase (path : String) : String :=
  if path = "" then "." else
  let p := stripTrailingSlashes path.toList
  let base := afterLastSlash p
  if base = [] then "/" else String.mk base

/-- Outcome of the vgs attribute query run by storageLVMThinpoolExists:
the command succeeded with captured output, or exited with a non-zero
status (an exec.ExitError), or failed without an exit status. -/
inductive VgsResult where
  | ok (output : String)
  | exitErr (status : Nat)
  | otherErr
deriving DecidableEq

/-- An ASCII whitespace character, as trimmed by Go strings.TrimSpace. -/
def isSpaceChar (c : Char) : Bool :=
  c = ' ' || c = '\t' || c = '\n' || c = '\r'

/-- Go strings.TrimSpace: drop leading and trailing whitespace. -/
def trimSpace (s : String) : List Char :=
  ((s.toList.dropWhile isSpaceChar).reverse.dropWhile isSpaceChar).reverse

/-- Go strings.HasPrefix on character lists. -/
def hasPrefix (s pre : List Char) : Bool := pre.isPrefixOf s

/-- storageLVMThinpoolExists: exit status 5 means the pool LV was not found
(false, nil); any other failure is a generic error; on success the trimmed
attribute string must start with t, otherwise the pool exists but is not a
thin pool. -/
def storageLVMThinpoolExists (res : VgsResult) (poolName : String) :
    Except String Bool :=
  match res with
  | .exitErr status =>
      if status = 5 then .ok false
      else .error ("Error checking for pool " ++ poolName)
  | .otherErr => .error ("Error checking for pool " ++ poolName)
  | .ok output =>
      if hasPrefix (trimSpace output) ['t'] then .ok true
      else .error ("Pool named " ++ poolName ++ " exists but is not a thin pool.")

/-- storageLVMCheckVolumeGroup: a vgdisplay failure (any non-zero exit,
given by the vgExists oracle) is reported as the group not being found. -/
def storageLVMCheckVolumeGroup (vgExists : String → Bool) (vgName : String) :
    GoErr :=
  if vgExists vgName then none
  else some ("LVM volume group " ++ vgName ++ " not found")

/-! ## ContainerCreateFromImage and ImageCreate path bookkeeping (C2) -/

/-- The link path ContainerCreateFromImage checks before deciding whether to
materialize the image: images/fingerprint.lv. -/
def imageLVFilename (imageFingerprint : String) : String :=
  varPath "images" (imageFingerprint ++ ".lv")

/-- The symlink destination ImageCreate creates for its fingerprint
argument: images/fingerprint.lv. -/
def imageCreateLinkDst (fingerprint : String) : String :=
  varPath "images" (fingerprint ++ ".lv")

/-- The argument ContainerCreateFromImage actually passes to ImageCreate:
the full link file path imageLVFilename, not the bare fingerprint. -/
def imageCreateArgument (imageFingerprint : String) : String :=
  imageLVFilename imageFingerprint

/-- The materialization guard of ContainerCreateFromImage: ImageCreate is
invoked exactly when the link path imageLVFilename does not exist. -/
def containerCreateFromImageMaterializes (linkExists : String → Bool)
    (imageFingerprint : String) : Bool :=
  ! linkExists (imageLVFilename imageFingerprint)

/-! ## ContainerCreateFromImage control flow (C1) -/

/-- Outcomes of the external steps of ContainerCreateFromImage, in source
order.  shiftRes is consulted only for unprivileged containers;
shiftCleanupUnmountRes only when the shift failed. -/
structure CreateFromImageEnv where
  imageLinkExists : Bool
  imageCreateRes : GoErr
  snapshotLVRes : Except String String
  mkdirRes : GoErr
  symlinkRes : GoErr
  mountRes : GoErr
  isPrivileged : Bool
  shiftRes : GoErr
  shiftCleanupUnmountRes : GoErr
  templateRes : GoErr
  finalUnmountRes : GoErr

/-- ContainerCreateFromImage: materialize the image if its link is missing,
snapshot-clone it, create directory and link, mount, shift ownership for
unprivileged containers (with unmount-and-delete rollback on failure), apply
the create template hook (failure only logged), then unmount.  Returns the
Go error result together with whether the final unmount was attempted. -/
def ContainerCreateFromImage (env : CreateFromImageEnv) : GoErr × Bool :=
  match (if env.imageLinkExists then none else env.imageCreateRes) with
  | some e => (some e, false)
  | none =>
  match env.snapshotLVRes with
  | .error e => (some e, false)
  | .ok _lvpath =>
  match env.mkdirRes with
  | some e => (some ("Error creating container directory: " ++ e), false)
  | none =>
  match env.symlinkRes with
  | some e => (some e, false)
  | none =>
  match env.mountRes with
  | some e => (some ("Error mounting snapshot LV: " ++ e), false)
  | none =>
  match env.isPrivileged, env.shiftRes with
  | false, some e =>
      (match env.shiftCleanupUnmountRes with
       | some e2 =>
           (some ("Error in umount: " ++ e2 ++
             " while cleaning up after error in shiftRootfs: " ++ e), false)
       | none => (some ("Error in shiftRootfs: " ++ e), false))
  | _, _ =>
      match env.finalUnmountRes with
      | some u => (some ("Error unmounting after shiftRootfs: " ++ u), true)
      | none => (env.templateRes, true)

/-! ## ContainerRename (C3) -/

/-- Outcomes of the external steps of ContainerRename: the backend lvrename,
the symlink rename, whether the entity is itself a snapshot, its snapshot
list, and the result of each recursive ContainerRename keyed by the new
name passed to it. -/
structure RenameEnv where
  renameLVErr : GoErr
  symlinkRenameRes : GoErr
  isSnapshot : Bool
  snapshots : List String
  nestedRes : String → GoErr

/-- The snapshot loop of ContainerRename: for each snapshot, build
newSnapshotName from newName (the LV-escaped new name), the snapshot
delimiter and the base of the snapshot name, then recurse; a nested failure
aborts the loop.  Returns the result and the list of issued recursive calls
as (snapshot name, new name passed) pairs. -/
def renameSnapshotCalls (newName : String) (nested : String → GoErr) :
    List String → GoErr × List (String × String)
  | [] => (none, [])
  | snapName :: rest =>
    let baseSnapName := filepathBase snapName
    let newSnapshotName := newName ++ snapshotDelimiter ++ baseSnapName
    match nested newSnapshotName with
    | some e => (some e, [(snapName, newSnapshotName)])
    | none =>
      let r := renameSnapshotCalls newName nested rest
      (r.1, (snapName, newSnapshotName) :: r.2)

/-- ContainerRename: rename the backend LV, rename the symlink, and, unless
the entity is a snapshot, recursively rename every snapshot.  Returns the
result together with the recursive rename calls issued. -/
def ContainerRename (env : RenameEnv) (newContainerName : String) :
    GoErr × List (String × String) :=
  let newName := containerNameToLVName newContainerName
  match env.renameLVErr with
  | some _e => (some "Failed to rename a container LV", [])
  | none =>
  match env.symlinkRenameRes with
  | some e => (some e, [])
  | none =>
  if env.isSnapshot then (none, [])
  else renameSnapshotCalls newName env.nestedRes env.snapshots

/-! ## Init (C4) -/

/-- Outcomes of the external steps of Init: the shared initialisation, the
lvm version query, the stored configuration value of storage.lvm_vg_name,
the optional explicit vgName entry of the config map (none when absent),
and the vgdisplay existence oracle. -/
structure InitEnv where
  initSharedRes : GoErr
  lvmVersionRes : Except String String
  storedVgName : String
  configVgName : Option String
  vgExists : String → Bool

/-- Init: after shared initialisation and the lvm version query, resolve the
volume group: when the config map has no vgName entry, read the stored
configuration key, fail when it is empty, check the group exists and bind
it; when an explicit vgName entry is present, bind it directly.  Returns
the bound volume-group name or an error. -/
def Init (env : InitEnv) : Except String String :=
  match env.initSharedRes with
  | some e => .error e
  | none =>
  match env.lvmVersionRes with
  | .error e => .error ("Error getting LVM version: " ++ e)
  | .ok _ =>
  match env.configVgName with
  | none =>
      if env.storedVgName = "" then .error "LVM is not enabled"
      else
        match storageLVMCheckVolumeGroup env.vgExists env.storedVgName with
        | some e => .error e
        | none => .ok env.storedVgName
  | some vg => .ok vg

/-! ## ContainerCopy (C5) -/

/-- Outcomes of the external steps of ContainerCopy: whether the source is
backed by this driver, the snapshot-clone result on the fast path, and on
the fallback path the results of ContainerCreate, ContainerStart, the rsync
directory synchronisation (some failureOutput when it fails), ContainerStop
and the copy template hook. -/
structure CopyEnv where
  sourceIsLVM : Bool
  snapshotCopyRes : GoErr
  createRes : GoErr
  startRes : GoErr
  rsyncRes : Option String
  stopRes : GoErr
  templateRes : GoErr

/-- ContainerCopy: snapshot-clone when the source is driver-backed;
otherwise create an empty destination, start it, rsync the contents, stop
it, deleting the destination on start or rsync failure.  Returns the result
together with whether the destination was deleted before returning. -/
def ContainerCopy (env : CopyEnv) : GoErr × Bool :=
  if env.sourceIsLVM then
    match env.snapshotCopyRes with
    | some e => (some e, false)
    | none => (env.templateRes, false)
  else
    match env.createRes with
    | some e => (some e, false)
    | none =>
    match env.startRes with
    | some e => (some e, true)
    | none =>
    match env.rsyncRes with
    | some rsyncOutput => (some ("rsync failed: " ++ rsyncOutput), true)
    | none =>
    match env.stopRes with
    | some e => (some e, false)
    | none => (env.templateRes, false)

/-! ## Pool guard: in-use scan and configuration setters (C6) -/

/-- The daemon state the pool guard consults and mutates: the two stored
configuration values, the container and image name listings, and the
existing link records given as a predicate on link paths. -/
structure DaemonState where
  vgNameCfg : String
  thinPoolCfg : String
  containerNames : List String
  imageNames : List String
  links : String → Bool

/-- The link path storageLVMGetThinPoolUsers probes for a container name:
under snapshots when the name contains the delimiter, else under
containers. -/
def lvLinkPathFor (cName : String) : String :=
  if containsChar cName '/' then varPath "snapshots" (cName ++ ".lv")
  else varPath "containers" (cName ++ ".lv")

/-- storageLVMGetThinPoolUsers: empty when either stored configuration value
is empty; otherwise every listed container or image name whose link record
exists. -/
def storageLVMGetThinPoolUsers (st : DaemonState) : List String :=
  if st.vgNameCfg = "" then []
  else if st.thinPoolCfg = "" then []
  else
    st.containerNames.filter (fun cName => st.links (lvLinkPathFor cName)) ++
    st.imageNames.filter (fun imageName =>
      st.links (varPath "images" (imageName ++ ".lv")))

/-- The in-use refusal message, naming the blocking entities. -/
def inUseMsg (users : List String) : String :=
  "Can not change LVM config. Images or containers are still using LVs: " ++
    String.intercalate " " users

/-- storageLVMSetThinPoolNameConfig: refuse when any user exists; a
non-empty pool name additionally requires a configured volume group and a
confirmed thin pool; then write the configuration value.  Returns the
result and the updated daemon state. -/
def storageLVMSetThinPoolNameConfig (probe : String → String → VgsResult)
    (st : DaemonState) (poolname : String) : GoErr × DaemonState :=
  if storageLVMGetThinPoolUsers st = [] then
    if poolname = "" then (none, { st with thinPoolCfg := poolname })
    else if st.vgNameCfg = "" then
      (some "Can not set lvm_thinpool_name without lvm_vg_name set.", st)
    else
      match storageLVMThinpoolExists (probe st.vgNameCfg poolname) poolname with
      | .error e => (some ("Error checking for thin pool: " ++ e), st)
      | .ok false =>
          (some ("Pool " ++ poolname ++ " does not exist in Volume Group " ++
            st.vgNameCfg), st)
      | .ok true => (none, { st with thinPoolCfg := poolname })
  else (some (inUseMsg (storageLVMGetThinPoolUsers st)), st)

/-- storageLVMSetVolumeGroupNameConfig: refuse when any user exists; a
non-empty group name requires the group to exist; then write the
configuration value. -/
def storageLVMSetVolumeGroupNameConfig (vgExists : String → Bool)
    (st : DaemonState) (vgname : String) : GoErr × DaemonState :=
  if storageLVMGetThinPoolUsers st = [] then
    if vgname = "" then (none, { st with vgNameCfg := vgname })
    else
      match storageLVMCheckVolumeGroup vgExists vgname with
      | some e => (some e, st)
      | none => (none, { st with vgNameCfg := vgname })
  else (some (inUseMsg (storageLVMGetThinPoolUsers st)), st)

/-! ## ImageCreate (C8) -/

/-- Outcomes of the external steps of ImageCreate: thin LV creation (with
its device path), the symlink, the temporary mount-point directory (with
its path), the mount, the image untarring and the unmount. -/
structure ImageCreateEnv where
  thinLVRes : Except String String
  symlinkRes : GoErr
  tempDirRes : Except String String
  mountRes : GoErr
  untarRes : GoErr
  unmountRes : GoErr

/-- ImageCreate: create and link a thin LV, make a temporary mount point
(removed on every later path by the deferred cleanup), mount, untar the
image, unmount.  When unmounting fails the unmount error is returned alone
only if untarring succeeded; otherwise the untar error takes precedence and
the unmount failure is folded into its message.  Returns the result
together with whether the temporary directory was removed. -/
def ImageCreate (env : ImageCreateEnv) : GoErr × Bool :=
  match env.thinLVRes with
  | .error e => (some ("Error Creating LVM LV for new image: " ++ e), false)
  | .ok _lvpath =>
  match env.symlinkRes with
  | some e => (some e, false)
  | none =>
  match env.tempDirRes with
  | .error e => (some e, false)
  | .ok tempLVMountPoint =>
  match env.mountRes with
  | some e => (some ("Error mounting image LV: " ++ e), true)
  | none =>
  let untarErr := env.untarRes
  match env.unmountRes with
  | some unmountE =>
      match untarErr with
      | none => (some unmountE, true)
      | some untarE =>
          (some ("Error unmounting " ++ tempLVMountPoint ++
            " during cleanup of error " ++ untarE), true)
  | none => (untarErr, true)

/-! ## ContainerDelete (C10) -/

/-- The filesystem state visible to the driver: existing link records and
existing container directory trees. -/
structure FsState where
  links : List String
  dirs : List String
deriving DecidableEq

/-- Outcomes of the external steps of ContainerDelete: the backend lvremove
(some capturedOutput on failure), the removal of the link record, and the
recursive removal of the directory tree. -/
structure DeleteEnv where
  lvremoveRes : Option String
  removeLinkRes : GoErr
  removeAllRes : GoErr

/-- removeLV: a failing lvremove is reported as not being able to remove
the named LV. -/
def removeLV (lvremoveRes : Option String) (lvname : String) : GoErr :=
  match lvremoveRes with
  | some _output => some ("Could not remove LV named " ++ lvname)
  | none => none

/-- ContainerDelete: remove the backend LV, then the link record, then the
directory tree; each failure returns immediately.  Returns the result and
the resulting filesystem state. -/
def ContainerDelete (env : DeleteEnv) (st : FsState)
    (containerName cPath : String) : GoErr × FsState :=
  let lvName := containerNameToLVName containerName
  match removeLV env.lvremoveRes lvName with
  | some e => (some e, st)
  | none =>
  let lvLinkPath := cPath ++ ".lv"
  match env.removeLinkRes with
  | some e => (some e, st)
  | none =>
  let st1 : FsState := { st with links := st.links.erase lvLinkPath }
  match env.removeAllRes with
  | some e => (some ("Cleaning up " ++ cPath ++ ": " ++ e), st1)
  | none => (none, { st1 with dirs := st1.dirs.erase cPath })

/-! ## Theorems -/

/-- Claim C2: ContainerCreateFromImage passes the full link file path, not
the bare fingerprint, to ImageCreate, so the link that materialization
creates is not the link the existence check probes: after one successful
materialization for fingerprint abc123 the checked path still has no link
and a second call would invoke the materializer again, contradicting the
claim that the two paths are equal and no second allocation happens. -/
theorem C2_materialization_link_path_mismatch :
    imageCreateLinkDst (imageCreateArgument "abc123") ≠ imageLVFilename "abc123" ∧
    containerCreateFromImageMaterializes
      (fun p => p == imageCreateLinkDst (imageCreateArgument "abc123"))
      "abc123" = true := by
  decide

/-- The concrete ContainerRename environment: a healthy backend and symlink
rename, a non-snapshot container with the single snapshot c/s0, and
recursive renames that all succeed. -/
def envC3 : RenameEnv :=
  { renameLVErr := none, symlinkRenameRes := none, isSnapshot := false,
    snapshots := ["c/s0"], nestedRes := fun _ => none }

/-- Claim C3: renaming a non-snapshot container with one snapshot to the
new base name a-b issues exactly one recursive rename call, but the new
name passed to it is the LV-escaped a--b/s0, not the caller-supplied base
name followed by the delimiter and the suffix (a-b/s0) as the claim
states. -/
theorem C3_recursive_rename_uses_escaped_base_name :
    (ContainerRename envC3 "a-b").2 = [("c/s0", "a--b/s0")] ∧
    (ContainerRename envC3 "a-b").2.length = envC3.snapshots.length ∧
    ("a--b/s0" : String) ≠ "a-b" ++ snapshotDelimiter ++ filepathBase "c/s0" := by
  decide

/-- Claim C7: the thin-pool probe returns a successful false exactly on
backend exit status 5; any other failing exit is the generic checking
error; and a successful query whose trimmed attribute string does not start
with t is the exists-but-not-thin error rather than a successful false. -/
theorem C7_thinpool_probe_classification (poolName : String) :
    (∀ res : VgsResult,
        storageLVMThinpoolExists res poolName = .ok false ↔ res = .exitErr 5) ∧
    (∀ status : Nat, status ≠ 5 →
        storageLVMThinpoolExists (.exitErr status) poolName =
          .error ("Error checking for pool " ++ poolName)) ∧
    (storageLVMThinpoolExists .otherErr poolName =
        .error ("Error checking for pool " ++ poolName)) ∧
    (∀ output : String, hasPrefix (trimSpace output) ['t'] = false →
        storageLVMThinpoolExists (.ok output) poolName =
          .error ("Pool named " ++ poolName ++
            " exists but is not a thin pool.")) := by
  refine ⟨?_, ?_, ?_, ?_⟩
  · intro res
    cases res with
    | ok output =>
        simp only [storageLVMThinpoolExists]
        constructor
        · intro h
          by_cases hs : hasPrefix (trimSpace output) ['t'] = true
          · rw [if_pos hs] at h; exact absurd h (by simp)
          · rw [if_neg hs] at h; exact absurd h (by simp)
        · intro h; exact absurd h (by simp)
    | exitErr status =>
        simp only [storageLVMThinpoolExists]
        by_cases h : status = 5
        · subst h; simp
        · rw [if_neg h]; simp [h]
    | otherErr =>
        simp [storageLVMThinpoolExists]
  · intro status h
    simp [storageLVMThinpoolExists, h]
  · simp [storageLVMThinpoolExists]
  · intro output h
    simp [storageLVMThinpoolExists, h]

/-- Claim C7 witness: on pool0, exit status 5 gives a successful false,
exit status 2 gives the generic error, and a found volume with attribute
string x gives the not-a-thin-pool error. -/
theorem C7_thinpool_probe_classification_witness :
    storageLVMThinpoolExists (.exitErr 5) "pool0" = .ok false ∧
    storageLVMThinpoolExists (.exitErr 2) "pool0" =
      .error ("Error checking for pool " ++ "pool0") ∧
    storageLVMThinpoolExists (.ok "x") "pool0" =
      .error ("Pool named " ++ "pool0" ++ " exists but is not a thin pool.") :=
  ⟨((C7_thinpool_probe_classification "pool0").1 (.exitErr 5)).mpr rfl,
   (C7_thinpool_probe_classification "pool0").2.1 2 (by decide),
   (C7_thinpool_probe_classification "pool0").2.2.2 "x" (by decide)⟩

/-- Claim C10: when the backend volume removal fails, ContainerDelete
returns the removal error and the filesystem state is returned unchanged:
neither the link record nor the directory tree is removed. -/
theorem C10_delete_keeps_state_on_lv_error (env : DeleteEnv) (st : FsState)
    (containerName cPath : String) (capturedOutput : String)
    (h : env.lvremoveRes = some capturedOutput) :
    ContainerDelete env st containerName cPath =
      (some ("Could not remove LV named " ++ containerNameToLVName containerName),
       st) := by
  simp [ContainerDelete, removeLV, h]

/-- Claim C10 witness: deleting container c1 whose lvremove fails with
captured output boom returns the could-not-remove error and leaves the
link and directory entries in place. -/
theorem C10_delete_keeps_state_on_lv_error_witness :
    ContainerDelete ⟨some "boom", none, none⟩
      ⟨["containers/c1.lv"], ["containers/c1"]⟩ "c1" "containers/c1" =
      (some ("Could not remove LV named " ++ containerNameToLVName "c1"),
       ⟨["containers/c1.lv"], ["containers/c1"]⟩) :=
  C10_delete_keeps_state_on_lv_error _ _ _ _ "boom" rfl

/-- The concrete ContainerCreateFromImage environment: the image link
already exists, every external step succeeds, the container is privileged,
and only the create template hook fails. -/
def envC1 : CreateFromImageEnv :=
  { imageLinkExists := true, imageCreateRes := none,
    snapshotLVRes := .ok "/dev/vg0/c1", mkdirRes := none, symlinkRes := none,
    mountRes := none, isPrivileged := true, shiftRes := none,
    shiftCleanupUnmountRes := none, templateRes := some "template failed",
    finalUnmountRes := none }

/-- Claim C1: with every step up to and including the final unmount
succeeding and only the create template hook failing, ContainerCreateFromImage
returns the template-hook error rather than success, contradicting the
claim that the failure is only logged. -/
theorem C1_template_hook_error_is_returned :
    ContainerCreateFromImage envC1 = (some "template failed", true) ∧
    (ContainerCreateFromImage envC1).1 ≠ none := by
  decide

/-- Claim C1 (amended): when every step up to the template hook succeeds
and the hook fails, the failure does not abort the sequence: the final
unmount still proceeds, and when that unmount succeeds the hook error is
returned to the caller. -/
theorem C1_amended_hook_error_propagates (env : CreateFromImageEnv)
    (e : String)
    (himg : env.imageLinkExists = true ∨ env.imageCreateRes = none)
    (hsnap : ∃ p, env.snapshotLVRes = .ok p)
    (hmkdir : env.mkdirRes = none) (hsym : env.symlinkRes = none)
    (hmount : env.mountRes = none)
    (hshift : env.isPrivileged = true ∨ env.shiftRes = none)
    (hunmount : env.finalUnmountRes = none)
    (htemplate : env.templateRes = some e) :
    ContainerCreateFromImage env = (some e, true) := by
  obtain ⟨p, hp⟩ := hsnap
  unfold ContainerCreateFromImage
  have h1 : (if env.imageLinkExists then none else env.imageCreateRes) =
      (none : GoErr) := by
    rcases himg with h | h
    · simp [h]
    · cases env.imageLinkExists <;> simp [h]
  rw [h1, hp, hmkdir, hsym, hmount, hunmount, htemplate]
  rcases hshift with h | h
  · rw [h]
  · cases hpriv : env.isPrivileged
    · rw [h]
    · rfl

/-- Claim C1 amended witness: the environment envC1 evaluates to the
template-hook error with the final unmount attempted. -/
theorem C1_amended_hook_error_propagates_witness :
    ContainerCreateFromImage envC1 = (some "template failed", true) :=
  C1_amended_hook_error_propagates envC1 "template failed" (Or.inl rfl)
    ⟨"/dev/vg0/c1", rfl⟩ rfl rfl rfl (Or.inl rfl) rfl rfl

/-- The concrete Init environment: shared initialisation and the version
query succeed, the stored configuration key is empty, the config map
carries an explicit override naming a volume group that does not exist. -/
def envC4 : InitEnv :=
  { initSharedRes := none, lvmVersionRes := .ok "LVM version 2",
    storedVgName := "", configVgName := some "ghostvg",
    vgExists := fun _ => false }

/-- Claim C4: with an explicit override naming a volume group whose
existence check fails, Init still binds it and returns success, so the
override path performs no validation; and an explicit empty override is
bound as well instead of producing the feature-not-enabled failure. -/
theorem C4_override_is_not_validated :
    (Init envC4 = .ok "ghostvg" ∧ envC4.vgExists "ghostvg" = false) ∧
    Init { envC4 with configVgName := some "" } = .ok "" :=
  ⟨⟨rfl, rfl⟩, rfl⟩

/-- Claim C4 (amended): Init validates the volume group only when the name
comes from the stored configuration key, failing with the
feature-not-enabled error when that stored name is empty; an explicit
override from the config map is bound directly, without any existence
check. -/
theorem C4_amended_validation_only_for_stored_name (env : InitEnv) :
    (env.initSharedRes = none → (∃ out, env.lvmVersionRes = .ok out) →
      env.configVgName = none → env.storedVgName = "" →
        Init env = .error "LVM is not enabled") ∧
    (∀ vg, env.configVgName = none → Init env = .ok vg →
        vg = env.storedVgName ∧ env.vgExists vg = true ∧ vg ≠ "") ∧
    (∀ vg, env.configVgName = some vg → env.initSharedRes = none →
        (∃ out, env.lvmVersionRes = .ok out) → Init env = .ok vg) := by
  refine ⟨?_, ?_, ?_⟩
  · rintro h1 ⟨out, h2⟩ h3 h4
    simp [Init, h1, h2, h3, h4]
  · intro vg hcfg hok
    unfold Init at hok
    cases h1 : env.initSharedRes with
    | some e => rw [h1] at hok; simp at hok
    | none =>
      rw [h1] at hok
      cases h2 : env.lvmVersionRes with
      | error e => rw [h2] at hok; simp at hok
      | ok out =>
        rw [h2, hcfg] at hok
        by_cases h3 : env.storedVgName = ""
        · rw [if_pos h3] at hok; simp at hok
        · rw [if_neg h3] at hok
          unfold storageLVMCheckVolumeGroup at hok
          by_cases h4 : env.vgExists env.storedVgName = true
          · rw [if_pos h4] at hok
            simp only [Except.ok.injEq] at hok
            exact ⟨hok.symm, hok ▸ h4, hok ▸ h3⟩
          · rw [if_neg h4] at hok; simp at hok
  · rintro vg hcfg h1 ⟨out, h2⟩
    simp [Init, h1, h2, hcfg]

/-- Claim C4 amended witness: an override naming vgX is bound directly even
though the existence oracle rejects every name. -/
theorem C4_amended_validation_only_for_stored_name_witness :
    Init
      { initSharedRes := none,
        lvmVersionRes := .ok "v2",
        storedVgName := "",
        configVgName := some "vgX",
        vgExists := fun _ => false } = .ok "vgX" :=
  (C4_amended_validation_only_for_stored_name _).2.2 "vgX" rfl rfl ⟨"v2", rfl⟩

/-- The concrete ContainerCopy environment: a source not backed by this
driver, successful create, start and rsync, and a failing stop. -/
def envC5 : CopyEnv :=
  { sourceIsLVM := false, snapshotCopyRes := none, createRes := none,
    startRes := none, rsyncRes := none, stopRes := some "unmount failed",
    templateRes := none }

/-- Claim C5: in the fallback path, when the stop after a successful
directory synchronisation fails, the error is propagated without the
destination container being deleted, contradicting the claim that every
failure after the empty volume exists deletes the destination. -/
theorem C5_stop_failure_skips_delete :
    ContainerCopy envC5 = (some "unmount failed", false) := by
  decide

/-- Claim C5 (amended): in the fallback path the destination is deleted
before propagating a start failure or a directory-synchronisation failure,
but a stop failure after a successful synchronisation is propagated without
deleting the destination. -/
theorem C5_amended_delete_on_start_or_rsync_failure (env : CopyEnv)
    (hsrc : env.sourceIsLVM = false) (hcreate : env.createRes = none) :
    (∀ e, env.startRes = some e → ContainerCopy env = (some e, true)) ∧
    (∀ rsyncOutput, env.startRes = none → env.rsyncRes = some rsyncOutput →
        ContainerCopy env = (some ("rsync failed: " ++ rsyncOutput), true)) ∧
    (∀ e, env.startRes = none → env.rsyncRes = none → env.stopRes = some e →
        ContainerCopy env = (some e, false)) := by
  refine ⟨?_, ?_, ?_⟩
  · intro e h
    simp [ContainerCopy, hsrc, hcreate, h]
  · intro rsyncOutput h1 h2
    simp [ContainerCopy, hsrc, hcreate, h1, h2]
  · intro e h1 h2 h3
    simp [ContainerCopy, hsrc, hcreate, h1, h2, h3]

/-- Claim C5 amended witness: a failing start on the fallback path returns
the start error with the destination deleted. -/
theorem C5_amended_delete_on_start_or_rsync_failure_witness :
    ContainerCopy
      { sourceIsLVM := false,
        snapshotCopyRes := none,
        createRes := none,
        startRes := some "mount failed",
        rsyncRes := none,
        stopRes := none,
        templateRes := none } = (some "mount failed", true) :=
  (C5_amended_delete_on_start_or_rsync_failure _ rfl rfl).1 "mount failed" rfl

/-- The concrete daemon state: both configuration values unset, one listed
container c1 whose link record exists, no images. -/
def stC6 : DaemonState :=
  { vgNameCfg := "", thinPoolCfg := "", containerNames := ["c1"],
    imageNames := [], links := fun p => p == lvLinkPathFor "c1" }

/-- Claim C6: with the stored configuration values unset, the in-use scan
returns nothing even though container c1 has a link record, so
SetVolumeGroupName succeeds and writes the new value, and SetThinPoolName
with an empty name succeeds as well, contradicting the claim that both fail
whenever at least one link record exists. -/
theorem C6_unset_config_bypasses_in_use_check :
    ("c1" ∈ stC6.containerNames ∧ stC6.links (lvLinkPathFor "c1") = true) ∧
    (storageLVMSetVolumeGroupNameConfig (fun _ => true) stC6 "vg0").1 = none ∧
    (storageLVMSetVolumeGroupNameConfig (fun _ => true) stC6 "vg0").2.vgNameCfg
        = "vg0" ∧
    (storageLVMSetThinPoolNameConfig (fun _ _ => .otherErr) stC6 "").1 = none := by
  decide

/-- Claim C6 (amended): when both stored configuration values are non-empty
and at least one listed container or image has a link record, both setters
fail with the in-use error naming the blocking entities and return the
daemon state unchanged. -/
theorem C6_amended_in_use_blocks_config (st : DaemonState)
    (probe : String → String → VgsResult) (vgExists : String → Bool)
    (poolname vgname : String)
    (hvg : st.vgNameCfg ≠ "") (hpool : st.thinPoolCfg ≠ "")
    (hlink : (∃ c ∈ st.containerNames, st.links (lvLinkPathFor c) = true) ∨
             (∃ i ∈ st.imageNames,
                st.links (varPath "images" (i ++ ".lv")) = true)) :
    storageLVMSetThinPoolNameConfig probe st poolname =
      (some (inUseMsg (storageLVMGetThinPoolUsers st)), st) ∧
    storageLVMSetVolumeGroupNameConfig vgExists st vgname =
      (some (inUseMsg (storageLVMGetThinPoolUsers st)), st) := by
  have husers : storageLVMGetThinPoolUsers st ≠ [] := by
    unfold storageLVMGetThinPoolUsers
    rw [if_neg hvg, if_neg hpool]
    rcases hlink with ⟨c, hc, hl⟩ | ⟨i, hi, hl⟩
    · exact List.ne_nil_of_mem
        (List.mem_append_left _ (List.mem_filter.mpr ⟨hc, hl⟩))
    · exact List.ne_nil_of_mem
        (List.mem_append_right _ (List.mem_filter.mpr ⟨hi, hl⟩))
  constructor
  · unfold storageLVMSetThinPoolNameConfig
    rw [if_neg husers]
  · unfold storageLVMSetVolumeGroupNameConfig
    rw [if_neg husers]

/-- The concrete daemon state for the C6 witness: both configuration values
set and the listed container c1 holding a link record. -/
def stW6 : DaemonState :=
  { vgNameCfg := "vg0", thinPoolCfg := "pool0", containerNames := ["c1"],
    imageNames := [], links := fun p => p == lvLinkPathFor "c1" }

/-- Claim C6 amended witness: on the configured state with a linked
container, both setters refuse with the in-use error and leave the state
unchanged. -/
theorem C6_amended_in_use_blocks_config_witness :
    storageLVMSetThinPoolNameConfig (fun _ _ => .otherErr) stW6 "newpool" =
      (some (inUseMsg (storageLVMGetThinPoolUsers stW6)), stW6) ∧
    storageLVMSetVolumeGroupNameConfig (fun _ => true) stW6 "vg1" =
      (some (inUseMsg (storageLVMGetThinPoolUsers stW6)), stW6) :=
  C6_amended_in_use_blocks_config stW6 _ _ "newpool" "vg1" (by decide)
    (by decide) (Or.inl ⟨"c1", by decide, by decide⟩)

/-- Claim C8: once the temporary mount point exists it is removed on every
outcome; and when unpacking fails that error takes precedence: a failing
unmount is folded into a message built around the unpacking error, the
unmount error is returned on its own only when unpacking succeeded, and a
lone unpacking failure is returned as is. -/
theorem C8_image_create_error_precedence (env : ImageCreateEnv)
    (lvpath tempLVMountPoint : String)
    (hlv : env.thinLVRes = .ok lvpath) (hsym : env.symlinkRes = none)
    (htmp : env.tempDirRes = .ok tempLVMountPoint) :
    (ImageCreate env).2 = true ∧
    (env.mountRes = none →
      ((∀ untarE unmountE, env.untarRes = some untarE →
          env.unmountRes = some unmountE →
          ImageCreate env = (some ("Error unmounting " ++ tempLVMountPoint ++
            " during cleanup of error " ++ untarE), true)) ∧
       (∀ unmountE, env.untarRes = none → env.unmountRes = some unmountE →
          ImageCreate env = (some unmountE, true)) ∧
       (∀ untarE, env.untarRes = some untarE → env.unmountRes = none →
          ImageCreate env = (some untarE, true)))) := by
  constructor
  · unfold ImageCreate
    rw [hlv, hsym, htmp]
    cases hm : env.mountRes with
    | some e => rfl
    | none =>
      cases hu : env.unmountRes with
      | some unmountE => cases ht : env.untarRes <;> rfl
      | none => rfl
  · intro hm
    refine ⟨?_, ?_, ?_⟩
    · intro untarE unmountE h1 h2
      unfold ImageCreate
      rw [hlv, hsym, htmp, hm, h1, h2]
    · intro unmountE h1 h2
      unfold ImageCreate
      rw [hlv, hsym, htmp, hm, h1, h2]
    · intro untarE h1 h2
      unfold ImageCreate
      rw [hlv, hsym, htmp, hm, h1, h2]

/-- Claim C8 witness: with both untarring and unmounting failing, the
returned error is built around the untar failure with the unmount failure
folded into its message, and the temporary directory is removed. -/
theorem C8_image_create_error_precedence_witness :
    ImageCreate
      { thinLVRes := .ok "/dev/vg0/img",
        symlinkRes := none,
        tempDirRes := .ok "images/tmp_lv_mnt1",
        mountRes := none,
        untarRes := some "untar failed",
        unmountRes := some "unmount failed" } =
      (some ("Error unmounting " ++ "images/tmp_lv_mnt1" ++
        " during cleanup of error " ++ "untar failed"), true) :=
  ((C8_image_create_error_precedence _ "/dev/vg0/img" "images/tmp_lv_mnt1"
      rfl rfl rfl).2 rfl).1 "untar failed" "unmount failed" rfl rfl

/-- A false containsChar is exactly absence of the character. -/
theorem containsChar_eq_false_iff {s : String} {c : Char} :
    containsChar s c = false ↔ c ∉ s.toList := by
  simp [containsChar]

/-- Replacing the slash character in a list that contains no slash is the
identity. -/
theorem replaceChar_slash_id {l : List Char} (h : '/' ∉ l) :
    replaceChar '/' ['-'] l = l := by
  induction l with
  | nil => rfl
  | cons c t ih =>
    simp only [List.mem_cons, not_or] at h
    have hc : ¬ (c = '/') := fun hcc => h.1 hcc.symm
    simp [replaceChar, hc, ih h.2]

/-- Doubling hyphens introduces no slash. -/
theorem slash_not_mem_doubleHyphens {l : List Char} (h : '/' ∉ l) :
    '/' ∉ replaceChar '-' ['-', '-'] l := by
  induction l with
  | nil => simp [replaceChar]
  | cons c t ih =>
    simp only [List.mem_cons, not_or] at h
    simp only [replaceChar, List.mem_append, not_or]
    refine ⟨?_, ih h.2⟩
    by_cases hc : c = '-'
    · rw [if_pos hc]; decide
    · rw [if_neg hc]
      simp only [List.mem_singleton]
      exact h.1

/-- The hyphen-doubling step alone is injective on all character lists. -/
theorem replaceChar_doubleHyphens_injective :
    ∀ l₁ l₂ : List Char,
      replaceChar '-' ['-', '-'] l₁ = replaceChar '-' ['-', '-'] l₂ →
        l₁ = l₂ := by
  intro l₁
  induction l₁ with
  | nil =>
    intro l₂ h
    cases l₂ with
    | nil => rfl
    | cons d u =>
      exfalso
      simp only [replaceChar] at h
      by_cases hd : d = '-'
      · rw [if_pos hd] at h; simp at h
      · rw [if_neg hd] at h; simp at h
  | cons c t ih =>
    intro l₂ h
    cases l₂ with
    | nil =>
      exfalso
      simp only [replaceChar] at h
      by_cases hc : c = '-'
      · rw [if_pos hc] at h; simp at h
      · rw [if_neg hc] at h; simp at h
    | cons d u =>
      simp only [replaceChar] at h
      by_cases hc : c = '-' <;> by_cases hd : d = '-'
      · rw [if_pos hc, if_pos hd] at h
        simp only [List.cons_append, List.nil_append] at h
        injection h with _ h
        injection h with _ h
        rw [hc, hd, ih u h]
      · rw [if_pos hc, if_neg hd] at h
        simp only [List.cons_append, List.nil_append] at h
        injection h with h1 _
        exact absurd h1.symm hd
      · rw [if_neg hc, if_pos hd] at h
        simp only [List.cons_append, List.nil_append] at h
        injection h with h1 _
        exact absurd h1 hc
      · rw [if_neg hc, if_neg hd] at h
        simp only [List.cons_append, List.nil_append] at h
        injection h with h1 h2
        rw [h1, ih u h2]

/-- Claim C9: for distinct logical names free of the snapshot delimiter,
containerNameToLVName produces distinct volume names: the mapping
restricted to delimiter-free names is injective. -/
theorem C9_name_mapping_injective_on_delimiter_free_names (s₁ s₂ : String)
    (h₁ : containsChar s₁ '/' = false) (h₂ : containsChar s₂ '/' = false)
    (hne : s₁ ≠ s₂) :
    containerNameToLVName s₁ ≠ containerNameToLVName s₂ := by
  intro heq
  apply hne
  have m₁ : '/' ∉ s₁.toList := containsChar_eq_false_iff.mp h₁
  have m₂ : '/' ∉ s₂.toList := containsChar_eq_false_iff.mp h₂
  simp only [containerNameToLVName] at heq
  rw [replaceChar_slash_id (slash_not_mem_doubleHyphens m₁),
      replaceChar_slash_id (slash_not_mem_doubleHyphens m₂)] at heq
  injection heq with heq
  have hlists := replaceChar_doubleHyphens_injective _ _ heq
  cases s₁ with
  | mk d₁ =>
    cases s₂ with
    | mk d₂ =>
      simp only [String.toList] at hlists
      rw [hlists]

/-- Claim C9 witness: the distinct delimiter-free names ct-a and ct-b map
to distinct volume names. -/
theorem C9_name_mapping_injective_witness :
    containerNameToLVName "ct-a" ≠ containerNameToLVName "ct-b" :=
  C9_name_mapping_injective_on_delimiter_free_names "ct-a" "ct-b"
    (by decide) (by decide) (by decide)

end storageLvm
